import Mathlib

/-!
# Highway active validator — shallow embedding

A shallow embedding of `src/node/src/components/consensus/highway_core/active_validator.rs`
(the Highway active-validator engine of `casper-node`), together with the parts of the
protocol-state interface (`state.rs`, `panorama.rs`) that the active validator calls.
Those collaborator files are not part of the covered source, so their accessors are either
modelled from the specification (round arithmetic, unit structure, `next_seq_num`,
`is_correct_proposal`) or kept as abstract function fields of `State` (fork choice, cutoff,
leader selection, `sees_correct`, …): the active validator only ever calls them through
this interface.

Machine integers (`u64` timestamps, `u8` round exponents) are modelled as `Nat`; none of
the verified properties depends on overflow behaviour.
-/

namespace Highway

/-- Content hash of a unit. Modelled as a plain identifier. -/
abbrev UnitHash := Nat

/-- Dense validator index in `[0, N)`. -/
abbrev ValidatorIndex := Nat

/-- Milliseconds since epoch (`u64` in the source). -/
abbrev Timestamp := Nat

/-- Millisecond duration (`u64` in the source). -/
abbrev TimeDiff := Nat

/-- Modelled from the spec: a panorama slot is `Null` (no unit seen from that creator),
`Correct(hash)` (latest seen unit hash), or `Faulty` (equivocation proved). -/
inductive Observation where
  | null : Observation
  | correct : UnitHash → Observation
  | faulty : Observation
deriving DecidableEq, Repr

/-- `Observation::correct()`: the hash if the observation is `Correct`, else `none`. -/
def Observation.correctHash : Observation → Option UnitHash
  | .correct h => some h
  | _ => none

/-- `Observation::is_faulty()`. -/
def Observation.isFaulty : Observation → Bool
  | .faulty => true
  | _ => false

/-- Modelled from the spec: a panorama is an array of length N of observations,
one slot per validator. -/
structure Panorama where
  obs : List Observation
deriving DecidableEq, Repr

/-- Slot of validator `i` in the panorama (out-of-range reads as `Null`). -/
def Panorama.get (p : Panorama) (i : ValidatorIndex) : Observation :=
  p.obs.getD i .null

/-- Modelled from the spec: `Panorama::has_correct()` — at least one slot is `Correct`. -/
def Panorama.hasCorrect (p : Panorama) : Bool :=
  p.obs.any fun o => (o.correctHash).isSome

/-- Modelled from the spec: round length is `1 << round_exp` milliseconds
(`state::round_len`). -/
def round_len (roundExp : Nat) : TimeDiff := 2 ^ roundExp

/-- Modelled from the spec: the round id is the timestamp with the round-length bits
zeroed, `⌊t / round_len⌋ · round_len` (`state::round_id`). -/
def round_id (timestamp : Timestamp) (roundExp : Nat) : Timestamp :=
  timestamp / round_len roundExp * round_len roundExp

/-- Modelled from the spec: a unit stored in the protocol state, with the fields the
active validator reads: creator, sequence number, timestamp, round exponent, panorama,
and the optional consensus value (present only on proposals). -/
structure Unit where
  creator : ValidatorIndex
  seqNumber : Nat
  timestamp : Timestamp
  roundExp : Nat
  panorama : Panorama
  value : Option Nat
deriving DecidableEq, Repr

/-- Modelled from the spec: `Unit::previous()` — `panorama[creator]` either references
the creator's immediate predecessor unit or is `Null` (first unit). -/
def Unit.previous (u : Unit) : Option UnitHash :=
  (u.panorama.get u.creator).correctHash

/-- `Unit::round_id()`: the round id of the unit's own timestamp at its own exponent. -/
def Unit.round_id (u : Unit) : Timestamp := Highway.round_id u.timestamp u.roundExp

/-- `Unit::round_len()`: the round length at the unit's own exponent. -/
def Unit.round_len (u : Unit) : TimeDiff := Highway.round_len u.roundExp

/-- The read-only protocol-state interface used by the active validator. The accessors
whose implementations live outside the covered source (`state.rs`, `panorama.rs`) are
abstract function fields; the active validator treats them as opaque. -/
structure State where
  /-- `state.panorama()`: the globally-known latest observation per validator. -/
  panorama : Panorama
  /-- `state.citable_panorama()`: what this node may cite (never its own equivocations). -/
  citablePanorama : Panorama
  /-- `state.unit(hash)`: unit lookup (total here; the source panics on a missing hash). -/
  units : UnitHash → Unit
  /-- `state.leader(round_id)`: deterministic leader of the round starting at `round_id`. -/
  leader : Timestamp → ValidatorIndex
  /-- `panorama.cutoff(state, t)`: latest ancestors with timestamp ≤ t. -/
  cutoff : Panorama → Timestamp → Panorama
  /-- `state.fork_choice(panorama)`: the fork-choice parent block, if any. -/
  forkChoice : Panorama → Option UnitHash
  /-- `state.is_terminal_block(hash)`. -/
  isTerminalBlock : UnitHash → Bool
  /-- `state.block(hash).height`. -/
  blockHeight : UnitHash → Nat
  /-- `state.confirmation_panorama(own_index, proposal_hash)`. -/
  confirmationPanorama : ValidatorIndex → UnitHash → Panorama
  /-- `state.seen_endorsed(panorama)`: endorsed units within the visible sub-DAG. -/
  seenEndorsed : Panorama → List UnitHash
  /-- `panorama.sees_correct(state, hash)`: some correct entry transitively cites `hash`. -/
  seesCorrect : Panorama → UnitHash → Bool
  /-- `state.opt_evidence(idx).is_some()`: direct evidence against validator `idx`. -/
  hasEvidence : ValidatorIndex → Bool
  /-- `state.is_faulty(idx)`: validator `idx` is marked faulty. -/
  isFaultyIdx : ValidatorIndex → Bool
  /-- `unit.new_hash_obs(state, idx)`: the unit cites a new message by validator `idx`. -/
  newHashObs : Unit → ValidatorIndex → Bool

/-- Modelled from the spec: `panorama.next_seq_num(state, v)` — 0 if the slot is not
`Correct`, else the cited unit's sequence number plus one. -/
def State.nextSeqNum (s : State) (p : Panorama) (v : ValidatorIndex) : Nat :=
  match (p.get v).correctHash with
  | none => 0
  | some h => (s.units h).seqNumber + 1

/-- Modelled from the spec: `state.is_correct_proposal(unit)` — value present, timestamp
equal to the unit's own round id, and the leader of that round equal to the creator. -/
def State.isCorrectProposal (s : State) (u : Unit) : Bool :=
  u.value.isSome && u.timestamp == u.round_id && s.leader u.round_id == u.creator

/-- `BlockContext`: timestamp and height passed to the block proposer. -/
structure BlockContext where
  timestamp : Timestamp
  height : Nat
deriving DecidableEq, Repr

/-- A unit as the active validator signs it (`WireUnit`, minus signature and secret). -/
structure WireUnit where
  panorama : Panorama
  creator : ValidatorIndex
  instanceId : Nat
  value : Option Nat
  seqNumber : Nat
  timestamp : Timestamp
  roundExp : Nat
  endorsed : List UnitHash
deriving DecidableEq, Repr

/-- An action taken by a validator (`Effect<C>`); endorsement vertices carry the endorsed
hash and the endorser, equivocation evidence is elided. -/
inductive Effect where
  | newVertexUnit : WireUnit → Effect
  | newVertexEndorsement : UnitHash → ValidatorIndex → Effect
  | scheduleTimer : Timestamp → Effect
  | requestNewBlock : BlockContext → Effect
  | weEquivocated : Effect
deriving DecidableEq, Repr

/-- The mutable fields of `ActiveValidator` (the secret key is elided: signing is not
modelled). -/
structure ActiveValidator where
  vidx : ValidatorIndex
  nextRoundExp : Nat
  nextTimer : Timestamp
  nextProposal : Option (Timestamp × Panorama)
deriving DecidableEq, Repr

/-- `ActiveValidator::latest_unit`: the most recent unit by this validator. -/
def latest_unit (av : ActiveValidator) (s : State) : Option Unit :=
  ((s.panorama.get av.vidx).correctHash).map s.units

/-- `ActiveValidator::is_faulty`: the validator knows it is faulty. -/
def is_faulty (av : ActiveValidator) (s : State) : Bool :=
  (s.panorama.get av.vidx).isFaulty

/-- `ActiveValidator::witness_offset`: duration into a round when witness units are sent. -/
def witness_offset (roundLen : TimeDiff) : TimeDiff :=
  roundLen * 2 / 3

/-- `ActiveValidator::round_exp`: the round exponent of the round containing `timestamp` —
`next_round_exp` if that is valid for a unit cast at `timestamp`, otherwise the round
exponent of the latest own unit. -/
def round_exp (av : ActiveValidator) (s : State) (timestamp : Timestamp) : Nat :=
  match latest_unit av s with
  | none => av.nextRoundExp
  | some u =>
      let maxRe := max av.nextRoundExp u.roundExp
      if u.timestamp < round_id timestamp maxRe then av.nextRoundExp else u.roundExp

/-- `ActiveValidator::earliest_unit_time`: the earliest timestamp at which the next own
unit may be cast. -/
def earliest_unit_time (av : ActiveValidator) (s : State) : Timestamp :=
  match latest_unit av s with
  | none => 0
  | some u =>
      match u.previous with
      | none => u.timestamp
      | some vh2 =>
          let unit2 := s.units vh2
          max u.timestamp (unit2.round_id + unit2.round_len)

/-- `ActiveValidator::new_unit`: build a new signed unit with the given data; always
consumes any pending proposal, and replaces the panorama by the citable one when its own
slot is stale. -/
def new_unit (av : ActiveValidator) (panorama : Panorama) (timestamp : Timestamp)
    (value : Option Nat) (s : State) (instanceId : Nat) : ActiveValidator × WireUnit :=
  let av1 : ActiveValidator := { av with nextProposal := none }
  let pano :=
    if panorama.get av1.vidx ≠ s.panorama.get av1.vidx then s.citablePanorama
    else panorama
  let wunit : WireUnit :=
    { panorama := pano
      creator := av1.vidx
      instanceId := instanceId
      value := value
      seqNumber := s.nextSeqNum pano av1.vidx
      timestamp := timestamp
      roundExp := round_exp av1 s timestamp
      endorsed := s.seenEndorsed pano }
  (av1, wunit)

/-- `ActiveValidator::schedule_timer`: a `ScheduleTimer` effect for the next required
call, unless one is already scheduled. -/
def schedule_timer (av : ActiveValidator) (timestamp : Timestamp) (s : State) :
    ActiveValidator × List Effect :=
  if av.nextTimer > timestamp then (av, [])
  else
    let rExp := round_exp av s timestamp
    let rId := round_id timestamp rExp
    let rLen := round_len rExp
    let nt :=
      if timestamp < rId + witness_offset rLen then rId + witness_offset rLen
      else
        let nextRId := rId + rLen
        if s.leader nextRId == av.vidx then nextRId
        else nextRId + witness_offset (round_len (round_exp av s nextRId))
    ({ av with nextTimer := nt }, [Effect.scheduleTimer nt])

/-- `ActiveValidator::request_new_block`: request a consensus value for a new block, or
propose immediately (without a value) after a terminal block. -/
def request_new_block (av : ActiveValidator) (s : State) (instanceId : Nat)
    (timestamp : Timestamp) : ActiveValidator × Option Effect :=
  match av.nextProposal with
  | some _ => (av, none)
  | none =>
      let panorama := s.cutoff s.citablePanorama timestamp
      let optParentHash := s.forkChoice panorama
      if (optParentHash.map s.isTerminalBlock).getD false then
        let r := new_unit av panorama timestamp none s instanceId
        (r.1, some (Effect.newVertexUnit r.2))
      else
        let height := (optParentHash.map s.blockHeight).getD 0
        ({ av with nextProposal := some (timestamp, panorama) },
         some (Effect.requestNewBlock ⟨timestamp, height⟩))

/-- `ActiveValidator::handle_timer`: the actions a validator takes at `timestamp`. -/
def handle_timer (av : ActiveValidator) (timestamp : Timestamp) (s : State)
    (instanceId : Nat) : ActiveValidator × List Effect :=
  if is_faulty av s then (av, [])
  else
    let st := schedule_timer av timestamp s
    let av1 := st.1
    let effects := st.2
    if earliest_unit_time av1 s > timestamp then (av1, effects)
    else
      let rExp := round_exp av1 s timestamp
      let rId := round_id timestamp rExp
      let rLen := round_len rExp
      if timestamp == rId && s.leader rId == av1.vidx then
        let r := request_new_block av1 s instanceId timestamp
        (r.1, effects ++ r.2.toList)
      else if timestamp == rId + witness_offset rLen then
        let panorama := s.cutoff s.citablePanorama timestamp
        if panorama.hasCorrect then
          let r := new_unit av1 panorama timestamp none s instanceId
          (r.1, effects ++ [Effect.newVertexUnit r.2])
        else (av1, effects)
      else (av1, effects)

/-- `ActiveValidator::propose`: propose a new block with the given consensus value. -/
def propose (av : ActiveValidator) (value : Nat) (blockContext : BlockContext) (s : State)
    (instanceId : Nat) : ActiveValidator × List Effect :=
  let timestamp := blockContext.timestamp
  if earliest_unit_time av s > timestamp then (av, [])
  else if is_faulty av s then (av, [])
  else
    match av.nextProposal with
    | none => (av, [])
    | some (propTime, panorama) =>
        let av1 : ActiveValidator := { av with nextProposal := none }
        if propTime ≠ timestamp then (av1, [])
        else
          let r := new_unit av1 panorama timestamp (some value) s instanceId
          (r.1, [Effect.newVertexUnit r.2])

/-- `ActiveValidator::should_send_confirmation`: whether the incoming unit is a proposal
we need to confirm. -/
def should_send_confirmation (av : ActiveValidator) (vhash : UnitHash)
    (timestamp : Timestamp) (s : State) : Bool :=
  if timestamp < earliest_unit_time av s then false
  else if (s.units vhash).timestamp > timestamp then false
  else if (s.units vhash).creator == av.vidx || is_faulty av s
      || !(s.isCorrectProposal (s.units vhash)) then false
  else if (match latest_unit av s with
           | some u => s.seesCorrect u.panorama vhash
           | none => false) then false
  else if (s.units vhash).timestamp ≠ round_id timestamp (round_exp av s timestamp) then
    false
  else true

/-- `ActiveValidator::should_endorse`: whether we should endorse the unit at `vhash`. -/
def should_endorse (_av : ActiveValidator) (vhash : UnitHash) (s : State) : Bool :=
  let unit := s.units vhash
  !(s.isFaultyIdx unit.creator) &&
    (List.range unit.panorama.obs.length).any fun vidx =>
      s.isFaultyIdx vidx && s.newHashObs unit vidx

/-- `ActiveValidator::on_new_unit`: the actions a validator takes upon a new unit. -/
def on_new_unit (av : ActiveValidator) (vhash : UnitHash) (now : Timestamp) (s : State)
    (instanceId : Nat) : ActiveValidator × List Effect :=
  if s.hasEvidence av.vidx then (av, [Effect.weEquivocated])
  else
    let r1 :=
      if should_send_confirmation av vhash now s then
        let panorama := s.confirmationPanorama av.vidx vhash
        if panorama.hasCorrect then
          let r := new_unit av panorama now none s instanceId
          (r.1, [Effect.newVertexUnit r.2])
        else (av, [])
      else (av, [])
    let effects2 :=
      if should_endorse av vhash s then [Effect.newVertexEndorsement vhash av.vidx]
      else []
    (r1.1, r1.2 ++ effects2)

/-- The units among a list of effects (the payloads of `NewVertex(Unit(_))` effects). -/
def unitsOf (effects : List Effect) : List WireUnit :=
  effects.filterMap fun e =>
    match e with
    | .newVertexUnit u => some u
    | _ => none

/-- The timer-scheduling algorithm as the specification words it: compute
`r_exp, r_id, r_len, w` from the call time, return nothing when a later timer is already
scheduled, otherwise pick this round's witness slot, the next round's proposal slot (when
leading it), or the next round's witness slot. -/
def schedule_timer_spec (av : ActiveValidator) (t : Timestamp) (s : State) :
    ActiveValidator × List Effect :=
  if av.nextTimer > t then (av, [])
  else
    let rExp := round_exp av s t
    let rId := round_id t rExp
    let rLen := round_len rExp
    let w := witness_offset rLen
    let next :=
      if t < rId + w then rId + w
      else if s.leader (rId + rLen) == av.vidx then rId + rLen
      else rId + rLen + witness_offset (round_len (round_exp av s (rId + rLen)))
    ({ av with nextTimer := next }, [Effect.scheduleTimer next])

/-- The round-exponent rule as the specification words it: keep the latest own unit's
exponent when that unit's round (at the exponent `max(next_round_exp, u.round_exp)`)
reaches the round containing `t`; otherwise (also with no own unit) use
`next_round_exp`. -/
def round_exp_spec (av : ActiveValidator) (s : State) (t : Timestamp) : Nat :=
  match latest_unit av s with
  | some u =>
      if round_id t (max av.nextRoundExp u.roundExp) ≤ u.timestamp then u.roundExp
      else av.nextRoundExp
  | none => av.nextRoundExp

/-! Concrete instances for witnesses and counterexamples: a two-validator setting
(indices 0 and 1) with round exponent 4 (round length 16 ms), mirroring the source's own
unit test. -/

/-- Empty two-validator panorama. -/
def emptyPanorama2 : Panorama := ⟨[.null, .null]⟩

/-- A placeholder unit used as the default of the unit lookup. -/
def unit0 : Unit :=
  { creator := 0, seqNumber := 0, timestamp := 0, roundExp := 4,
    panorama := emptyPanorama2, value := none }

/-- A minimal concrete protocol state: two validators, nothing seen, no faults. -/
def baseState : State :=
  { panorama := emptyPanorama2
    citablePanorama := emptyPanorama2
    units := fun _ => unit0
    leader := fun _ => 0
    cutoff := fun p _ => p
    forkChoice := fun _ => none
    isTerminalBlock := fun _ => false
    blockHeight := fun _ => 0
    confirmationPanorama := fun _ _ => emptyPanorama2
    seenEndorsed := fun _ => []
    seesCorrect := fun _ _ => false
    hasEvidence := fun _ => false
    isFaultyIdx := fun _ => false
    newHashObs := fun _ _ => false }

/-- A concrete active validator: index 0, round exponent 4, nothing scheduled. -/
def avBase : ActiveValidator :=
  { vidx := 0, nextRoundExp := 4, nextTimer := 0, nextProposal := none }

/-- Predecessor own unit for the C7 witness: first unit, round `[16, 32)`. -/
def uPrevC7 : Unit :=
  { creator := 0, seqNumber := 0, timestamp := 16, roundExp := 4,
    panorama := emptyPanorama2, value := none }

/-- Latest own unit for the C7 witness: cites its predecessor at hash 1. -/
def uLatestC7 : Unit :=
  { creator := 0, seqNumber := 1, timestamp := 20, roundExp := 4,
    panorama := ⟨[.correct 1, .null]⟩, value := none }

/-- State for the C7 witness: our latest unit (hash 2) has a predecessor (hash 1). -/
def sC7 : State :=
  { baseState with
    panorama := ⟨[.correct 2, .null]⟩
    units := fun h => if h == 2 then uLatestC7 else uPrevC7 }

/-- The conditions of claim C4 exactly as stated: `now ≥ earliest_unit_time`; target's
timestamp ≤ `now`; target creator is not the own index; self not faulty; target is a
correct proposal; the own latest unit's panorama does not already see the target as
correct; and — as the claim words it — the target's timestamp aligns with its own round
id under its own round exponent. -/
def confirmation_claim_conditions (av : ActiveValidator) (vhash : UnitHash)
    (now : Timestamp) (s : State) : Bool :=
  decide (earliest_unit_time av s ≤ now) &&
  decide ((s.units vhash).timestamp ≤ now) &&
  !((s.units vhash).creator == av.vidx) &&
  !(is_faulty av s) &&
  s.isCorrectProposal (s.units vhash) &&
  (match latest_unit av s with
   | some lu => !(s.seesCorrect lu.panorama vhash)
   | none => true) &&
  decide ((s.units vhash).timestamp =
    round_id (s.units vhash).timestamp (s.units vhash).roundExp)

/-- The conditions of claim C4 as the code forces them to be amended: the final
alignment check compares the target's timestamp with the round id of `now` under the
validator's current round exponent, not with the target's own round id. -/
def confirmation_conditions_amended (av : ActiveValidator) (vhash : UnitHash)
    (now : Timestamp) (s : State) : Bool :=
  decide (earliest_unit_time av s ≤ now) &&
  decide ((s.units vhash).timestamp ≤ now) &&
  !((s.units vhash).creator == av.vidx) &&
  !(is_faulty av s) &&
  s.isCorrectProposal (s.units vhash) &&
  (match latest_unit av s with
   | some lu => !(s.seesCorrect lu.panorama vhash)
   | none => true) &&
  decide ((s.units vhash).timestamp = round_id now (round_exp av s now))

/-- Remote proposal unit for the C4 counterexample: a correct proposal by validator 1
for round `[16, 32)`. -/
def uC4 : Unit :=
  { creator := 1, seqNumber := 0, timestamp := 16, roundExp := 4,
    panorama := emptyPanorama2, value := some 7 }

/-- State for the C4 counterexample: validator 1's proposal (hash 1) is the only unit. -/
def sC4 : State :=
  { baseState with
    panorama := ⟨[.null, .correct 1]⟩
    units := fun _ => uC4
    leader := fun _ => 1 }

/-- State for the C1 witness: like `sC4` but with a usable confirmation panorama, so a
confirmation unit is actually emitted at time 20 (inside the proposal's round). -/
def sC1 : State :=
  { sC4 with confirmationPanorama := fun _ _ => ⟨[.null, .correct 1]⟩ }

/-- The confirmation unit emitted in the C1 witness scenario. -/
def wuC1 : WireUnit :=
  { panorama := ⟨[.null, .correct 1]⟩, creator := 0, instanceId := 1, value := none,
    seqNumber := 0, timestamp := 20, roundExp := 4, endorsed := [] }

/-- State for the C5 counterexample: the own validator is marked faulty. -/
def sC5 : State := { baseState with panorama := ⟨[.faulty, .null]⟩ }

/-- State for the C2 counterexample: the fork choice yields a non-terminal parent block
(hash 3) of height 5. -/
def sC2 : State :=
  { baseState with forkChoice := fun _ => some 3, blockHeight := fun _ => 5 }

end Highway

namespace Highway

/-- C6: `round_exp` agrees everywhere with the specification's description: it returns
the latest own unit's round exponent exactly when that unit's timestamp reaches the start
of the round containing `t` at exponent `max(next_round_exp, unit.round_exp)`, and
`next_round_exp` otherwise, in particular whenever there is no own unit. -/
theorem round_exp_spec_correct (av : ActiveValidator) (s : State) (t : Timestamp) :
    round_exp av s t = round_exp_spec av s t := by
  unfold round_exp round_exp_spec
  cases latest_unit av s with
  | none => rfl
  | some u =>
      by_cases h : u.timestamp < round_id t (max av.nextRoundExp u.roundExp)
      · simp only [if_pos h, if_neg (not_le.mpr h)]
      · simp only [if_neg h, if_pos (not_lt.mp h)]

/-- C3: `schedule_timer` agrees everywhere with the specification's timer-scheduling
algorithm: no effect when `next_timer > t`; otherwise it stores and returns a single
`ScheduleTimer` at this round's witness slot, the next round's proposal slot when we lead
it, or the next round's witness slot. -/
theorem schedule_timer_spec_correct (av : ActiveValidator) (t : Timestamp) (s : State) :
    schedule_timer av t s = schedule_timer_spec av t s := rfl

/-- C7: when the latest own unit `u` itself has a predecessor `vh2`, the earliest
admissible time for the next own unit is the maximum of `u.timestamp` and the end of the
predecessor's round. -/
theorem earliest_unit_time_with_previous (av : ActiveValidator) (s : State) (u : Unit)
    (vh2 : UnitHash) (h1 : latest_unit av s = some u) (h2 : u.previous = some vh2) :
    earliest_unit_time av s =
      max u.timestamp ((s.units vh2).round_id + (s.units vh2).round_len) := by
  simp [earliest_unit_time, h1, h2]

/-- C8: whenever no pending proposal with exactly the block context's timestamp is
stashed, `propose` returns an empty effect list and produces no unit. -/
theorem propose_mismatch_empty (av : ActiveValidator) (value : Nat)
    (blockContext : BlockContext) (s : State) (instanceId : Nat)
    (h : ∀ pt pan, av.nextProposal = some (pt, pan) → pt ≠ blockContext.timestamp) :
    (propose av value blockContext s instanceId).2 = [] := by
  by_cases h1 : earliest_unit_time av s > blockContext.timestamp
  · simp [propose, h1]
  · by_cases h2 : is_faulty av s = true
    · simp [propose, h1, h2]
    · rcases hm : av.nextProposal with _ | ⟨pt, pan⟩
      · simp [propose, h1, h2, hm]
      · have hne := h pt pan hm
        simp [propose, h1, h2, hm, hne]

/-- C7 witness: at a concrete state whose latest own unit (timestamp 20) has a
predecessor occupying round `[16, 32)`, the earliest admissible unit time evaluates to
`max 20 (16 + 16)`. -/
theorem earliest_unit_time_with_previous_witness :
    latest_unit avBase sC7 = some uLatestC7 ∧ uLatestC7.previous = some 1 ∧
    earliest_unit_time avBase sC7 =
      max uLatestC7.timestamp ((sC7.units 1).round_id + (sC7.units 1).round_len) :=
  ⟨rfl, rfl, earliest_unit_time_with_previous avBase sC7 uLatestC7 1 rfl rfl⟩

/-- C8 witness: with no stashed pending proposal, `propose` at a concrete input returns
no effects. -/
theorem propose_mismatch_empty_witness :
    avBase.nextProposal = none ∧ (propose avBase 0 ⟨416, 0⟩ baseState 1).2 = [] :=
  ⟨rfl, propose_mismatch_empty avBase 0 ⟨416, 0⟩ baseState 1
    (fun _ _ hm => Option.noConfusion hm)⟩

/-- C5 counterexample: with the own validator marked faulty in the state's panorama,
`handle_timer` returns the empty effect list — in particular it does not return the
`ScheduleTimer` effect the claim promises. -/
theorem handle_timer_faulty_cex :
    sC5.panorama.get avBase.vidx = Observation.faulty ∧
    (handle_timer avBase 416 sC5 1).2 = [] :=
  ⟨rfl, rfl⟩

/-- C5 amended: when the state's panorama marks the own validator faulty, `handle_timer`
returns no effects at all (no unit and no timer), leaving the validator unchanged. -/
theorem handle_timer_faulty_no_effects (av : ActiveValidator) (t : Timestamp) (s : State)
    (instanceId : Nat) (h : (s.panorama.get av.vidx).isFaulty = true) :
    handle_timer av t s instanceId = (av, []) := by
  unfold handle_timer
  simp [is_faulty, h]

/-- C5 amended witness: the faulty-self rule evaluated at the concrete faulty state. -/
theorem handle_timer_faulty_no_effects_witness :
    (sC5.panorama.get avBase.vidx).isFaulty = true ∧
    handle_timer avBase 416 sC5 1 = (avBase, []) :=
  ⟨rfl, handle_timer_faulty_no_effects avBase 416 sC5 1 rfl⟩

/-- C2 counterexample: with no pending proposal and a non-terminal fork-choice parent of
height 5, `request_new_block` emits a `BlockContext` of height 5 — the parent's height,
not `parent.height + 1 = 6` as the claim states. -/
theorem request_new_block_height_cex :
    avBase.nextProposal = none ∧
    sC2.forkChoice (sC2.cutoff sC2.citablePanorama 32) = some 3 ∧
    sC2.isTerminalBlock 3 = false ∧
    sC2.blockHeight 3 = 5 ∧
    (request_new_block avBase sC2 1 32).2 = some (Effect.requestNewBlock ⟨32, 5⟩) ∧
    (5 : Nat) ≠ 5 + 1 :=
  ⟨rfl, rfl, rfl, rfl, rfl, by decide⟩

/-- C2 amended: when no pending proposal is stashed and the fork choice over the cutoff
of the citable panorama does not yield a terminal parent, `request_new_block` stashes
`(t, panorama)` and returns a `RequestNewBlock` effect whose context carries timestamp
`t` and the parent's height (or height 0 when there is no parent). -/
theorem request_new_block_not_terminal (av : ActiveValidator) (s : State)
    (instanceId : Nat) (t : Timestamp) (hnp : av.nextProposal = none)
    (hterm : ((s.forkChoice (s.cutoff s.citablePanorama t)).map s.isTerminalBlock).getD
      false = false) :
    request_new_block av s instanceId t =
      ({ av with nextProposal := some (t, s.cutoff s.citablePanorama t) },
       some (Effect.requestNewBlock
         ⟨t, ((s.forkChoice (s.cutoff s.citablePanorama t)).map s.blockHeight).getD 0⟩)) := by
  unfold request_new_block
  rw [hnp]
  simp [hterm]

/-- C2 amended witness: the non-terminal branch evaluated at the concrete state with a
parent of height 5. -/
theorem request_new_block_not_terminal_witness :
    request_new_block avBase sC2 1 32 =
      ({ avBase with nextProposal := some (32, emptyPanorama2) },
       some (Effect.requestNewBlock ⟨32, 5⟩)) :=
  request_new_block_not_terminal avBase sC2 1 32 rfl rfl

/-- C4 counterexample: at time 40 the validator's current round is `[32, 48)`, so the
code refuses to confirm validator 1's round-`[16, 32)` proposal even though every
condition of the claim as stated — including alignment of the proposal's timestamp with
its own round id — holds. -/
theorem should_send_confirmation_claim_cex :
    should_send_confirmation avBase 1 40 sC4 = false ∧
    confirmation_claim_conditions avBase 1 40 sC4 = true :=
  ⟨rfl, rfl⟩

/-- C4 amended: `should_send_confirmation` returns true exactly when all the claim's
conditions hold, with the final alignment check reading: the target's timestamp equals
the round id of `now` under the validator's current round exponent. -/
theorem should_send_confirmation_eq_amended (av : ActiveValidator) (vhash : UnitHash)
    (now : Timestamp) (s : State) :
    should_send_confirmation av vhash now s =
      confirmation_conditions_amended av vhash now s := by
  unfold should_send_confirmation confirmation_conditions_amended
  by_cases h1 : now < earliest_unit_time av s
  · have e1 : decide (earliest_unit_time av s ≤ now) = false := by
      simp [not_le.mpr h1]
    rw [if_pos h1, e1]
    simp
  · have e1 : decide (earliest_unit_time av s ≤ now) = true := by
      simp [not_lt.mp h1]
    rw [if_neg h1, e1]
    by_cases h2 : (s.units vhash).timestamp > now
    · have e2 : decide ((s.units vhash).timestamp ≤ now) = false := by
        simp [not_le.mpr h2]
      rw [if_pos h2, e2]
      simp
    · have e2 : decide ((s.units vhash).timestamp ≤ now) = true := by
        simp [not_lt.mp h2]
      rw [if_neg h2, e2]
      by_cases h3 : ((s.units vhash).creator == av.vidx || is_faulty av s
          || !(s.isCorrectProposal (s.units vhash))) = true
      · rw [if_pos h3]
        simp only [Bool.or_eq_true] at h3
        rcases h3 with (h3a1 | h3a2) | h3c
        · simp [h3a1]
        · simp [h3a2]
        · have hcp : s.isCorrectProposal (s.units vhash) = false := by
            simpa using h3c
          simp [hcp]
      · rw [if_neg h3]
        have h3' := h3
        simp only [Bool.or_eq_true, not_or, Bool.not_eq_true, Bool.not_eq_true'] at h3'
        obtain ⟨⟨h3a, h3b⟩, h3c⟩ := h3'
        have h3cp : s.isCorrectProposal (s.units vhash) = true := by
          simpa using h3c
        rw [h3a, h3b, h3cp]
        cases hlu : latest_unit av s with
        | none =>
            simp only [hlu]
            rw [if_neg (by simp)]
            by_cases h5 : (s.units vhash).timestamp =
                round_id now (round_exp av s now)
            · have e5 : decide ((s.units vhash).timestamp =
                  round_id now (round_exp av s now)) = true := by simp [h5]
              rw [if_neg (by simpa using h5), e5]
              simp
            · have e5 : decide ((s.units vhash).timestamp =
                  round_id now (round_exp av s now)) = false := by simp [h5]
              rw [if_pos h5, e5]
              simp
        | some lu =>
            simp only [hlu]
            by_cases h4 : s.seesCorrect lu.panorama vhash = true
            · rw [if_pos h4, h4]
              simp
            · rw [if_neg h4]
              have e4 : s.seesCorrect lu.panorama vhash = false := by
                simpa using h4
              rw [e4]
              by_cases h5 : (s.units vhash).timestamp =
                  round_id now (round_exp av s now)
              · have e5 : decide ((s.units vhash).timestamp =
                    round_id now (round_exp av s now)) = true := by simp [h5]
                rw [if_neg (by simpa using h5), e5]
                simp
              · have e5 : decide ((s.units vhash).timestamp =
                    round_id now (round_exp av s now)) = false := by simp [h5]
                rw [if_pos h5, e5]
                simp

/-- C9: assuming the citable panorama agrees with the state's panorama at the own index
(it differs only at equivocations the node may not cite), every unit built by `new_unit`
cites the state's current own-index observation; when the supplied panorama's own slot is
stale the whole panorama is replaced by the citable one, and the sequence number is
computed on the panorama actually signed. -/
theorem new_unit_panorama_own_entry (av : ActiveValidator) (pano : Panorama)
    (timestamp : Timestamp) (value : Option Nat) (s : State) (instanceId : Nat)
    (hcit : s.citablePanorama.get av.vidx = s.panorama.get av.vidx) :
    ((new_unit av pano timestamp value s instanceId).2).panorama.get av.vidx =
      s.panorama.get av.vidx ∧
    (pano.get av.vidx ≠ s.panorama.get av.vidx →
      ((new_unit av pano timestamp value s instanceId).2).panorama =
        s.citablePanorama) ∧
    ((new_unit av pano timestamp value s instanceId).2).seqNumber =
      s.nextSeqNum ((new_unit av pano timestamp value s instanceId).2).panorama
        av.vidx := by
  by_cases hd : pano.get av.vidx = s.panorama.get av.vidx
  · simp [new_unit, hd]
  · simp [new_unit, hd, hcit]

/-- A supplied panorama whose own-index slot is stale (cites hash 9, which the state's
panorama does not), used to exercise the replacement branch in the C9 witness. -/
def panoStale : Panorama := ⟨[.correct 9, .null]⟩

/-- C9 witness: `new_unit` evaluated at a concrete state whose citable and global
panoramas agree at the own index, on a supplied panorama whose own slot is stale — the
replacement branch fires. -/
theorem new_unit_panorama_own_entry_witness :
    ((new_unit avBase panoStale 16 none baseState 1).2).panorama.get avBase.vidx =
      baseState.panorama.get avBase.vidx ∧
    (panoStale.get avBase.vidx ≠ baseState.panorama.get avBase.vidx →
      ((new_unit avBase panoStale 16 none baseState 1).2).panorama =
        baseState.citablePanorama) ∧
    ((new_unit avBase panoStale 16 none baseState 1).2).seqNumber =
      baseState.nextSeqNum
        ((new_unit avBase panoStale 16 none baseState 1).2).panorama avBase.vidx :=
  new_unit_panorama_own_entry avBase panoStale 16 none baseState 1 rfl

/-- `unitsOf` distributes over list append. -/
theorem unitsOf_append (l1 l2 : List Effect) :
    unitsOf (l1 ++ l2) = unitsOf l1 ++ unitsOf l2 :=
  List.filterMap_append l1 l2 _

/-- `schedule_timer` emits no unit. -/
theorem unitsOf_schedule_timer (av : ActiveValidator) (t : Timestamp) (s : State) :
    unitsOf (schedule_timer av t s).2 = [] := by
  unfold schedule_timer
  split <;> rfl

/-- The unit built by `new_unit` carries exactly the requested timestamp. -/
theorem new_unit_timestamp (av : ActiveValidator) (pano : Panorama) (ts : Timestamp)
    (value : Option Nat) (s : State) (instanceId : Nat) :
    ((new_unit av pano ts value s instanceId).2).timestamp = ts := rfl

/-- `schedule_timer` never changes the validator's own index. -/
theorem schedule_timer_vidx (av : ActiveValidator) (t : Timestamp) (s : State) :
    ((schedule_timer av t s).1).vidx = av.vidx := by
  unfold schedule_timer
  split <;> rfl

/-- `earliest_unit_time` depends only on the validator's own index. -/
theorem earliest_unit_time_congr (av1 av2 : ActiveValidator) (s : State)
    (h : av1.vidx = av2.vidx) :
    earliest_unit_time av1 s = earliest_unit_time av2 s := by
  unfold earliest_unit_time latest_unit
  rw [h]

/-- Any unit emitted by `request_new_block` (the immediate terminal-block proposal)
carries the call's timestamp. -/
theorem mem_unitsOf_request_new_block (av : ActiveValidator) (s : State)
    (instanceId : Nat) (t : Timestamp) (u : WireUnit)
    (h : u ∈ unitsOf (request_new_block av s instanceId t).2.toList) :
    u.timestamp = t := by
  unfold request_new_block at h
  rcases hm : av.nextProposal with _ | p
  · rw [hm] at h
    simp only at h
    split at h
    · simp only [Option.toList_some, unitsOf, List.filterMap] at h
      rcases List.mem_singleton.mp (by simpa [unitsOf] using h) with rfl
      rfl
    · simp [unitsOf] at h
  · rw [hm] at h
    simp [unitsOf] at h

/-- Any unit emitted by `handle_timer` carries the call's timestamp, and the call passed
the staleness gate: `earliest_unit_time` did not exceed the timestamp. -/
theorem mem_unitsOf_handle_timer (av : ActiveValidator) (t : Timestamp) (s : State)
    (instanceId : Nat) (u : WireUnit)
    (h : u ∈ unitsOf (handle_timer av t s instanceId).2) :
    earliest_unit_time av s ≤ t ∧ u.timestamp = t := by
  have heut : earliest_unit_time ((schedule_timer av t s).1) s =
      earliest_unit_time av s :=
    earliest_unit_time_congr _ _ s (schedule_timer_vidx av t s)
  simp only [handle_timer] at h
  by_cases hf : is_faulty av s = true
  · rw [if_pos hf] at h
    simp [unitsOf] at h
  · rw [if_neg hf] at h
    by_cases hst : earliest_unit_time ((schedule_timer av t s).1) s > t
    · rw [if_pos hst] at h
      rw [unitsOf_schedule_timer] at h
      simp at h
    · rw [if_neg hst] at h
      have heut2 : earliest_unit_time av s ≤ t := by
        rw [heut] at hst
        exact not_lt.mp hst
      refine ⟨heut2, ?_⟩
      split at h
      · rw [unitsOf_append, unitsOf_schedule_timer] at h
        simp only [List.nil_append] at h
        exact mem_unitsOf_request_new_block _ s instanceId t u h
      · split at h
        · split at h
          · rw [unitsOf_append, unitsOf_schedule_timer] at h
            simp only [List.nil_append, unitsOf, List.filterMap] at h
            rcases List.mem_singleton.mp (by simpa [unitsOf] using h) with rfl
            rfl
          · rw [unitsOf_schedule_timer] at h
            simp at h
        · rw [unitsOf_schedule_timer] at h
          simp at h

/-- Any unit emitted by `propose` carries the block context's timestamp, and the call
passed the staleness gate. -/
theorem mem_unitsOf_propose (av : ActiveValidator) (value : Nat)
    (blockContext : BlockContext) (s : State) (instanceId : Nat) (u : WireUnit)
    (h : u ∈ unitsOf (propose av value blockContext s instanceId).2) :
    earliest_unit_time av s ≤ blockContext.timestamp ∧
      u.timestamp = blockContext.timestamp := by
  simp only [propose] at h
  by_cases h1 : earliest_unit_time av s > blockContext.timestamp
  · rw [if_pos h1] at h
    simp [unitsOf] at h
  · rw [if_neg h1] at h
    refine ⟨not_lt.mp h1, ?_⟩
    by_cases h2 : is_faulty av s = true
    · rw [if_pos h2] at h
      simp [unitsOf] at h
    · rw [if_neg h2] at h
      rcases hm : av.nextProposal with _ | ⟨pt, pan⟩
      · rw [hm] at h
        simp [unitsOf] at h
      · rw [hm] at h
        simp only at h
        split at h
        · simp [unitsOf] at h
        · simp only [unitsOf, List.filterMap] at h
          rcases List.mem_singleton.mp (by simpa [unitsOf] using h) with rfl
          rfl

/-- A true `should_send_confirmation` implies the staleness gate passed. -/
theorem should_send_confirmation_le (av : ActiveValidator) (vhash : UnitHash)
    (now : Timestamp) (s : State)
    (h : should_send_confirmation av vhash now s = true) :
    earliest_unit_time av s ≤ now := by
  by_contra hc
  unfold should_send_confirmation at h
  rw [if_pos (not_le.mp hc)] at h
  exact Bool.false_ne_true h

/-- Any unit emitted by `on_new_unit` (a confirmation) carries the call's `now`, and the
call passed the staleness gate. -/
theorem mem_unitsOf_on_new_unit (av : ActiveValidator) (vhash : UnitHash)
    (now : Timestamp) (s : State) (instanceId : Nat) (u : WireUnit)
    (h : u ∈ unitsOf (on_new_unit av vhash now s instanceId).2) :
    earliest_unit_time av s ≤ now ∧ u.timestamp = now := by
  simp only [on_new_unit] at h
  by_cases he : s.hasEvidence av.vidx = true
  · rw [if_pos he] at h
    simp [unitsOf] at h
  · rw [if_neg he] at h
    rw [unitsOf_append] at h
    have hend : unitsOf
        (if should_endorse av vhash s then [Effect.newVertexEndorsement vhash av.vidx]
         else []) = [] := by
      split <;> rfl
    rw [hend] at h
    simp only [List.append_nil] at h
    by_cases hc : should_send_confirmation av vhash now s = true
    · rw [if_pos hc] at h
      refine ⟨should_send_confirmation_le av vhash now s hc, ?_⟩
      split at h
      · simp only [unitsOf, List.filterMap] at h
        rcases List.mem_singleton.mp (by simpa [unitsOf] using h) with rfl
        rfl
      · simp [unitsOf] at h
    · rw [if_neg hc] at h
      simp [unitsOf] at h

/-- C1: every unit the active validator emits as a `NewVertex` effect — the proposal path
through `handle_timer` and `propose`, the confirmation path through `on_new_unit`, and
the witness path through `handle_timer` — has a timestamp no earlier than
`earliest_unit_time` computed on the protocol state before the call. -/
theorem emitted_units_respect_earliest_unit_time (av : ActiveValidator) (s : State)
    (instanceId : Nat) (t now : Timestamp) (value : Nat) (blockContext : BlockContext)
    (vhash : UnitHash) (u : WireUnit)
    (h : u ∈ unitsOf (handle_timer av t s instanceId).2 ∨
         u ∈ unitsOf (propose av value blockContext s instanceId).2 ∨
         u ∈ unitsOf (on_new_unit av vhash now s instanceId).2) :
    earliest_unit_time av s ≤ u.timestamp := by
  rcases h with h | h | h
  · obtain ⟨h1, h2⟩ := mem_unitsOf_handle_timer av t s instanceId u h
    exact le_of_le_of_eq h1 h2.symm
  · obtain ⟨h1, h2⟩ := mem_unitsOf_propose av value blockContext s instanceId u h
    exact le_of_le_of_eq h1 h2.symm
  · obtain ⟨h1, h2⟩ := mem_unitsOf_on_new_unit av vhash now s instanceId u h
    exact le_of_le_of_eq h1 h2.symm

/-- C1 witness: in a concrete state where validator 1's proposal arrives at time 20,
`on_new_unit` emits the confirmation unit `wuC1`, and its timestamp respects
`earliest_unit_time`. -/
theorem emitted_units_respect_earliest_unit_time_witness :
    wuC1 ∈ unitsOf (on_new_unit avBase 1 20 sC1 1).2 ∧
    earliest_unit_time avBase sC1 ≤ wuC1.timestamp :=
  ⟨by decide,
   emitted_units_respect_earliest_unit_time avBase sC1 1 0 20 0 ⟨0, 0⟩ 1 wuC1
     (Or.inr (Or.inr (by decide)))⟩

/-- C10: `new_unit` always clears the stashed pending proposal and changes no other
field of the active validator. -/
theorem new_unit_clears_next_proposal (av : ActiveValidator) (panorama : Panorama)
    (timestamp : Timestamp) (value : Option Nat) (s : State) (instanceId : Nat) :
    (new_unit av panorama timestamp value s instanceId).1.nextProposal = none ∧
    (new_unit av panorama timestamp value s instanceId).1.vidx = av.vidx ∧
    (new_unit av panorama timestamp value s instanceId).1.nextRoundExp =
      av.nextRoundExp ∧
    (new_unit av panorama timestamp value s instanceId).1.nextTimer = av.nextTimer :=
  ⟨rfl, rfl, rfl, rfl⟩

end Highway
